import Mathlib

/-!
Shallow embedding of the `sdx-lib` repository material: two Jupyter
notebooks (`fabric_aw-sdx_demo.ipynb`, `fabric_aw-sdx-with-auth_demo.ipynb`)
that drive the `sdxlib` client library (`TokenAuthentication`, `SDXClient`,
`SDXException`).  The library implementation itself is not part of the
supplied sources, only its callers; the library behaviour is therefore
modelled from the specification, while the notebooks' own call sequences
and literal arguments are transcribed from the notebook cells.
-/

namespace SdxLib

/-- Error taxonomy of the client contract: credential errors from the
authentication layer, `validationError` for the client-side input check,
`serviceError` carrying the server status and message, and `notFound` for
an unknown service id. -/
inductive SDXError where
  | credentialNotFound
  | credentialMalformed
  | credentialExpired
  | credentialInvalid
  | validationError
  | serviceError (status : Nat) (message : String)
  | notFound
  deriving DecidableEq, Repr

/-- Endpoint descriptor wire shape: a `port_id` and a `vlan` field, both
required strings.  `none` models an absent field in the descriptor. -/
structure Endpoint where
  port_id : Option String
  vlan : Option String
  deriving DecidableEq, Repr

/-- A required string field is unusable when it is absent or empty. -/
def missingOrEmpty (o : Option String) : Prop :=
  o = none ∨ o = some ("")

instance (o : Option String) : Decidable (missingOrEmpty o) := by
  unfold missingOrEmpty; infer_instance

/-- An endpoint descriptor is valid when both required fields are present
and non-empty. -/
def validEndpoint (e : Endpoint) : Bool :=
  (e.port_id.elim false (fun s => !s.isEmpty)) &&
  (e.vlan.elim false (fun s => !s.isEmpty))

/-- Local validation of an endpoint list: at least two entries, each one a
valid descriptor. -/
def validateEndpoints (es : List Endpoint) : Bool :=
  decide (2 ≤ es.length) && es.all validEndpoint

/-- An L2VPN service as stored by the controller: a name and the endpoint
list it was created with. -/
structure L2VPNService where
  name : String
  endpoints : List Endpoint
  deriving DecidableEq, Repr

/-- Controller-side state: a counter from which fresh service ids are
assigned, the advertised topology ports (port id paired with its VLAN
range), and the stored services keyed by id. -/
structure ServerState where
  nextId : Nat
  availablePorts : List (String × String)
  services : List (Nat × L2VPNService)
  deriving DecidableEq, Repr

/-- Look a service up by id in the controller state. -/
def lookupService (σ : ServerState) (i : Nat) : Option L2VPNService :=
  (σ.services.find? (fun p => p.1 == i)).map Prod.snd

/-- Wire-level request shapes of the REST API. -/
inductive Request where
  | getTopology
  | createL2vpn (name : String) (endpoints : List Endpoint)
  | getAll
  | getOne (i : Nat)
  | deleteOne (i : Nat)
  deriving DecidableEq, Repr

/-- A request as actually sent: the bearer token attached for
authorization (if any) together with the request body. -/
structure AuthedRequest where
  auth : Option String
  req : Request
  deriving DecidableEq, Repr

/-- The server's decision on a well-formed create request: accept it or
reject it with a status code and message. -/
inductive ServerDecision where
  | accept
  | reject (status : Nat) (message : String)
  deriving DecidableEq, Repr

/-- Modelled from the spec: `sdxlib.sdx_client.SDXClient` is not among the
supplied sources.  Its observed constructor shapes are
`SDXClient(url)`, `SDXClient(fabric_token, url)`,
`SDXClient(url, client_name, client_endpoints)` and
`SDXClient(fabric_token, url, client_name, client_endpoints)`: the client
instance holds an optional bearer token, the controller base URL, and the
circuit name and endpoint list fixed at construction. -/
structure SDXClient where
  fabric_token : Option String
  base_url : String
  name : String
  endpoints : List Endpoint
  deriving DecidableEq, Repr

/-- Outcome of one client call: the domain result or error, the controller
state afterwards, and the requests that went over the wire. -/
structure CallResult (α : Type) where
  result : Except SDXError α
  server : ServerState
  wire : List AuthedRequest
  deriving Repr

/-- Modelled from the spec: `create_l2vpn` first validates locally that the
endpoint list has at least two entries, each with a non-empty port
identifier and VLAN tag, failing with `validationError` before any network
request; otherwise it issues the create request with the client's token
attached and either receives the fresh server-assigned service id or a
`serviceError` with the server's status and message. -/
def create_l2vpn (c : SDXClient) (d : ServerDecision) (σ : ServerState) :
    CallResult Nat :=
  if validateEndpoints c.endpoints then
    match d with
    | ServerDecision.accept =>
      { result := Except.ok σ.nextId
        server :=
          { nextId := σ.nextId + 1
            availablePorts := σ.availablePorts
            services := (σ.nextId, ⟨c.name, c.endpoints⟩) :: σ.services }
        wire := [⟨c.fabric_token, Request.createL2vpn c.name c.endpoints⟩] }
    | ServerDecision.reject status msg =>
      { result := Except.error (SDXError.serviceError status msg)
        server := σ
        wire := [⟨c.fabric_token, Request.createL2vpn c.name c.endpoints⟩] }
  else
    { result := Except.error SDXError.validationError
      server := σ
      wire := [] }

/-- Modelled from the spec: `get_l2vpn` is a read-only query by id; the
server answers with the stored service or `notFound`. -/
def get_l2vpn (c : SDXClient) (i : Nat) (σ : ServerState) :
    CallResult L2VPNService :=
  { result :=
      match lookupService σ i with
      | some s => Except.ok s
      | none => Except.error SDXError.notFound
    server := σ
    wire := [⟨c.fabric_token, Request.getOne i⟩] }

/-- Modelled from the spec: `delete_l2vpn` issues the delete request;
deleting an id the server does not know is reported as `notFound`, not as
success. -/
def delete_l2vpn (c : SDXClient) (i : Nat) (σ : ServerState) :
    CallResult Unit :=
  match lookupService σ i with
  | some _ =>
    { result := Except.ok ()
      server :=
        { nextId := σ.nextId
          availablePorts := σ.availablePorts
          services := σ.services.filter (fun p => p.1 != i) }
      wire := [⟨c.fabric_token, Request.deleteOne i⟩] }
  | none =>
    { result := Except.error SDXError.notFound
      server := σ
      wire := [⟨c.fabric_token, Request.deleteOne i⟩] }

/-- Modelled from the spec: `get_all_l2vpns` is a read-only query for all
services owned by the caller. -/
def get_all_l2vpns (c : SDXClient) (σ : ServerState) :
    CallResult (List (Nat × L2VPNService)) :=
  { result := Except.ok σ.services
    server := σ
    wire := [⟨c.fabric_token, Request.getAll⟩] }

/-- Modelled from the spec: `get_available_ports` reads the topology
endpoint and returns the available port identifiers with VLAN ranges. -/
def get_available_ports (c : SDXClient) (σ : ServerState) :
    CallResult (List (String × String)) :=
  { result := Except.ok σ.availablePorts
    server := σ
    wire := [⟨c.fabric_token, Request.getTopology⟩] }

/-- One lifecycle operation of a client session, with the environment
inputs (service id, server decision) it is invoked with. -/
inductive ClientOp where
  | portsOp
  | createOp (d : ServerDecision)
  | getAllOp
  | getOp (i : Nat)
  | deleteOp (i : Nat)
  deriving DecidableEq, Repr

/-- Modelled from the spec: run one operation on a client instance.  Every
operation reads the client's construction-time fields, attaches its token,
and leaves the client instance itself untouched; only the controller state
changes.  The returned triple is (client afterwards, controller state
afterwards, requests sent). -/
def runOp (op : ClientOp) (c : SDXClient) (σ : ServerState) :
    SDXClient × ServerState × List AuthedRequest :=
  match op with
  | ClientOp.portsOp =>
    (c, (get_available_ports c σ).server, (get_available_ports c σ).wire)
  | ClientOp.createOp d =>
    (c, (create_l2vpn c d σ).server, (create_l2vpn c d σ).wire)
  | ClientOp.getAllOp =>
    (c, (get_all_l2vpns c σ).server, (get_all_l2vpns c σ).wire)
  | ClientOp.getOp i =>
    (c, (get_l2vpn c i σ).server, (get_l2vpn c i σ).wire)
  | ClientOp.deleteOp i =>
    (c, (delete_l2vpn c i σ).server, (delete_l2vpn c i σ).wire)

/-- Run a sequence of operations, threading the client instance and the
controller state. -/
def runOps (ops : List ClientOp) (c : SDXClient) (σ : ServerState) :
    SDXClient × ServerState :=
  match ops with
  | [] => (c, σ)
  | op :: rest =>
    runOps rest (runOp op c σ).1 (runOp op c σ).2.1

/-! ### Token authenticator (modelled from the spec) -/

/-- Decoded claims of a bearer token: subject, expiry instant, issuer. -/
structure Claims where
  sub : String
  exp : Nat
  iss : String
  deriving DecidableEq, Repr

/-- A credential: the raw signed token string and its decoded claims. -/
structure Credential where
  raw : String
  claims : Claims
  deriving DecidableEq, Repr

/-- What the filesystem holds at a path: nothing, an unreadable entry, or
readable content. -/
inductive FileEntry where
  | absent
  | unreadable
  | content (raw : String)
  deriving DecidableEq, Repr

/-- Modelled from the spec: `sdxlib.sdx_token_auth.TokenAuthentication` is
not among the supplied sources.  The authenticator instance holds the
configured token path and, once loaded, the credential and its decoded
claims. -/
structure TokenAuthentication where
  token_path : String
  fabric_token : Option Credential
  token_decoded : Option Claims
  deriving DecidableEq, Repr

/-- Modelled from the spec: `load_token` reads the credential from the
configured path, failing with `credentialNotFound` when the path does not
exist or is unreadable and with `credentialMalformed` when the content does
not parse; on success it stores the credential and its decoded claims.
The token format itself is opaque, so the parser is a parameter. -/
def load_token (parse : String → Option Credential)
    (fs : String → FileEntry) (a : TokenAuthentication) :
    Except SDXError TokenAuthentication :=
  match fs a.token_path with
  | FileEntry.absent => Except.error SDXError.credentialNotFound
  | FileEntry.unreadable => Except.error SDXError.credentialNotFound
  | FileEntry.content raw =>
    match parse raw with
    | none => Except.error SDXError.credentialMalformed
    | some cred =>
      Except.ok
        { token_path := a.token_path
          fabric_token := some cred
          token_decoded := some cred.claims }

/-- Modelled from the spec: `decode` exposes the parsed claims without
verifying anything; it is side-effect-free. -/
def decode_token (a : TokenAuthentication) : Option Claims :=
  a.fabric_token.map (fun cred => cred.claims)

/-- Modelled from the spec: `validate_token` checks expiry at the current
instant; it returns a boolean together with the (unchanged) authenticator,
or fails with `credentialExpired` when the token is expired and with
`credentialInvalid` when no credential is loaded.  The stored token is not
mutated. -/
def validate_token (now : Nat) (a : TokenAuthentication) :
    Except SDXError (Bool × TokenAuthentication) :=
  match a.fabric_token with
  | none => Except.error SDXError.credentialInvalid
  | some cred =>
    if cred.claims.exp ≤ now then Except.error SDXError.credentialExpired
    else Except.ok (true, a)

/-! ### The notebook workflows, transcribed from the sources -/

/-- The L2VPN name set in both notebooks (`client_name`). -/
def demoName : String :=
  "Test SDX SC24 L2VPN"

/-- The endpoint list set in both notebooks (`client_endpoints`). -/
def demoEndpoints : List Endpoint :=
  [⟨some ("urn:sdx:port:amlight.net:MIA-MI1-SW17:7"), some ("4015")⟩,
   ⟨some ("urn:sdx:port:amlight.net:MIA-MI1-SW15:9"), some ("4015")⟩]

/-- The controller base URL of the no-auth notebook. -/
def demoUrl : String :=
  "http://controller.atlanticwave-sdx.net:8080/SDX-Controller"

/-- The controller base URL of the with-auth notebook. -/
def demoUrlAuth : String :=
  "https://sdxapi.atlanticwave-sdx.ai/api"

/-- One top-level `sdxlib` call of a notebook.  A `constructClient` step
records whether the `fabric_token` was passed, the URL, and the optional
circuit name and endpoints given at construction. -/
inductive DemoStep where
  | loadTokenStep
  | validateTokenStep
  | constructClient (passesToken : Bool) (url : String)
      (circuitName : Option String) (circuitEndpoints : Option (List Endpoint))
  | portsStep
  | createStep
  | getAllStep
  | getStep
  | deleteStep
  deriving DecidableEq, Repr

/-- The `sdxlib` call sequence of `fabric_aw-sdx_demo.ipynb`:
`token_auth.load_token()`, `token_auth.validate_token()`,
`client = SDXClient(url)`, `client.get_available_ports()`,
`client = SDXClient(url, client_name, client_endpoints)`,
`client.create_l2vpn()`, `client.get_all_l2vpns()`,
`client.get_l2vpn(service_id = ...)`,
`client.delete_l2vpn(service_id = ...)`.
Neither `SDXClient` call passes the token. -/
def noauthDemoSteps : List DemoStep :=
  [DemoStep.loadTokenStep,
   DemoStep.validateTokenStep,
   DemoStep.constructClient false demoUrl none none,
   DemoStep.portsStep,
   DemoStep.constructClient false demoUrl (some demoName) (some demoEndpoints),
   DemoStep.createStep,
   DemoStep.getAllStep,
   DemoStep.getStep,
   DemoStep.deleteStep]

/-- The `sdxlib` call sequence of `fabric_aw-sdx-with-auth_demo.ipynb`:
the same shape, but both `SDXClient` calls pass `fabric_token` first:
`client = SDXClient(fabric_token, url)` and
`client = SDXClient(fabric_token, url, client_name, client_endpoints)`. -/
def withauthDemoSteps : List DemoStep :=
  [DemoStep.loadTokenStep,
   DemoStep.validateTokenStep,
   DemoStep.constructClient true demoUrlAuth none none,
   DemoStep.portsStep,
   DemoStep.constructClient true demoUrlAuth (some demoName) (some demoEndpoints),
   DemoStep.createStep,
   DemoStep.getAllStep,
   DemoStep.getStep,
   DemoStep.deleteStep]

/-- A step satisfies the token discipline when, if it constructs a client,
it passes the bearer token. -/
def stepPassesToken : DemoStep → Bool
  | DemoStep.constructClient passesToken _ _ _ => passesToken
  | _ => true

/-- Every client construction of the sequence passes the bearer token. -/
def clientConstructionsPassToken (steps : List DemoStep) : Bool :=
  steps.all stepPassesToken

/-- Is the step a client construction? -/
def isConstructStep : DemoStep → Bool
  | DemoStep.constructClient _ _ _ _ => true
  | _ => false

/-- The client of notebook cell `client = SDXClient(url)`: no token, no
circuit data. -/
def bareClient : SDXClient :=
  { fabric_token := none
    base_url := demoUrl
    name := ""
    endpoints := [] }

/-- The client of notebook cell
`client = SDXClient(url, client_name, client_endpoints)`. -/
def circuitClient : SDXClient :=
  { fabric_token := none
    base_url := demoUrl
    name := demoName
    endpoints := demoEndpoints }

/-- An empty controller state used as a concrete starting point. -/
def σ0 : ServerState :=
  { nextId := 0, availablePorts := [], services := [] }

/-! ### The try/except workflow around `create_l2vpn`, from the notebook -/

/-- What a notebook cell can fail with: a Python `NameError` from
dereferencing a name that was never bound, or a domain error surfaced as
an `SDXException`. -/
inductive CellError where
  | pythonNameError
  | sdxError (e : SDXError)
  deriving DecidableEq, Repr

/-- The notebook's try/except cell: `response = client.create_l2vpn()`
with `except SDXException` printing the failure.  On success `response`
is bound to the returned service id; on failure the exception is caught
and the binding of `response` is left as it was. -/
def runCreateCell (c : SDXClient) (d : ServerDecision) (σ : ServerState)
    (response : Option Nat) : Option Nat × ServerState :=
  match (create_l2vpn c d σ).result with
  | Except.ok sid => (some sid, (create_l2vpn c d σ).server)
  | Except.error _ => (response, (create_l2vpn c d σ).server)

/-- The notebook's query cell
`client.get_l2vpn(service_id = response['service_id'])`: evaluating the
argument dereferences `response`, so an unbound `response` raises a Python
`NameError` before any request is issued; otherwise the client call runs
and a domain failure surfaces as an `SDXException`. -/
def runGetCell (c : SDXClient) (σ : ServerState) (response : Option Nat) :
    Except CellError L2VPNService × List AuthedRequest :=
  match response with
  | none => (Except.error CellError.pythonNameError, [])
  | some sid =>
    match (get_l2vpn c sid σ).result with
    | Except.ok svc => (Except.ok svc, (get_l2vpn c sid σ).wire)
    | Except.error e => (Except.error (CellError.sdxError e), (get_l2vpn c sid σ).wire)

/-- The notebook's delete cell
`client.delete_l2vpn(service_id = response['service_id'])`, with the same
unbound-name behaviour as the query cell. -/
def runDeleteCell (c : SDXClient) (σ : ServerState) (response : Option Nat) :
    Except CellError Unit × ServerState × List AuthedRequest :=
  match response with
  | none => (Except.error CellError.pythonNameError, σ, [])
  | some sid =>
    match (delete_l2vpn c sid σ).result with
    | Except.ok u =>
      (Except.ok u, (delete_l2vpn c sid σ).server, (delete_l2vpn c sid σ).wire)
    | Except.error e =>
      (Except.error (CellError.sdxError e), (delete_l2vpn c sid σ).server,
        (delete_l2vpn c sid σ).wire)

/-! ### Helper lemmas -/

lemma validateEndpoints_short {es : List Endpoint} (h : es.length < 2) :
    validateEndpoints es = false := by
  have hd : decide (2 ≤ es.length) = false := decide_eq_false (by omega)
  simp [validateEndpoints, hd]

lemma validEndpoint_false_of_bad (e : Endpoint)
    (h : missingOrEmpty e.port_id ∨ missingOrEmpty e.vlan) :
    validEndpoint e = false := by
  have hempty : (String.isEmpty ("")) = true := rfl
  rcases h with (h | h) | (h | h) <;> simp [validEndpoint, h, hempty]

lemma all_false_of_mem {es : List Endpoint} {e : Endpoint}
    (he : e ∈ es) (hbad : validEndpoint e = false) :
    es.all validEndpoint = false := by
  cases hall : es.all validEndpoint with
  | false => rfl
  | true =>
    exfalso
    have := List.all_eq_true.mp hall e he
    rw [hbad] at this
    exact Bool.false_ne_true this

lemma validateEndpoints_false_of_bad_mem {es : List Endpoint} {e : Endpoint}
    (he : e ∈ es) (hbad : validEndpoint e = false) :
    validateEndpoints es = false := by
  simp [validateEndpoints, all_false_of_mem he hbad]

/-! ### Claims -/

/-- C1: a `create_l2vpn` call whose endpoint list has fewer than two
entries fails with `validationError`, nothing goes over the wire, and the
controller state is untouched — the failure comes from the local check
performed before any network request. -/
theorem create_l2vpn_rejects_short_endpoint_list
    (c : SDXClient) (d : ServerDecision) (σ : ServerState)
    (h : c.endpoints.length < 2) :
    (create_l2vpn c d σ).result = Except.error SDXError.validationError ∧
    (create_l2vpn c d σ).wire = [] ∧
    (create_l2vpn c d σ).server = σ := by
  have hv : validateEndpoints c.endpoints = false := validateEndpoints_short h
  simp [create_l2vpn, hv]

/-- Witness for C1 at the notebook's first client, `SDXClient(url)`, whose
endpoint list is empty. -/
theorem create_l2vpn_rejects_short_endpoint_list_witness :
    bareClient.endpoints.length < 2 ∧
    ((create_l2vpn bareClient ServerDecision.accept σ0).result =
        Except.error SDXError.validationError ∧
      (create_l2vpn bareClient ServerDecision.accept σ0).wire = [] ∧
      (create_l2vpn bareClient ServerDecision.accept σ0).server = σ0) :=
  ⟨by decide,
   create_l2vpn_rejects_short_endpoint_list bareClient ServerDecision.accept σ0
     (by decide)⟩

/-- An endpoint descriptor with a missing `port_id`, as a concrete bad
input. -/
def badEndpoint : Endpoint :=
  ⟨none, some ("4015")⟩

/-- A client whose endpoint list contains `badEndpoint` alongside a valid
descriptor. -/
def badClient : SDXClient :=
  { fabric_token := none
    base_url := demoUrl
    name := demoName
    endpoints :=
      [badEndpoint,
       ⟨some ("urn:sdx:port:amlight.net:MIA-MI1-SW15:9"), some ("4015")⟩] }

/-- C5: when any endpoint descriptor of the list is missing its required
`port_id` or `vlan` field, or has it empty, `create_l2vpn` fails with
`validationError` and no request is sent over the wire. -/
theorem create_l2vpn_rejects_bad_endpoint
    (c : SDXClient) (d : ServerDecision) (σ : ServerState) (e : Endpoint)
    (he : e ∈ c.endpoints)
    (hbad : missingOrEmpty e.port_id ∨ missingOrEmpty e.vlan) :
    (create_l2vpn c d σ).result = Except.error SDXError.validationError ∧
    (create_l2vpn c d σ).wire = [] := by
  have hv : validateEndpoints c.endpoints = false :=
    validateEndpoints_false_of_bad_mem he (validEndpoint_false_of_bad e hbad)
  simp [create_l2vpn, hv]

/-- Witness for C5 at a client holding an endpoint with no `port_id`. -/
theorem create_l2vpn_rejects_bad_endpoint_witness :
    badEndpoint ∈ badClient.endpoints ∧
    (missingOrEmpty badEndpoint.port_id ∨ missingOrEmpty badEndpoint.vlan) ∧
    ((create_l2vpn badClient ServerDecision.accept σ0).result =
        Except.error SDXError.validationError ∧
      (create_l2vpn badClient ServerDecision.accept σ0).wire = []) :=
  ⟨by decide, Or.inl (Or.inl rfl),
   create_l2vpn_rejects_bad_endpoint badClient ServerDecision.accept σ0
     badEndpoint (by decide) (Or.inl (Or.inl rfl))⟩

lemma find_after_filter_ne (l : List (Nat × L2VPNService)) (i : Nat) :
    (l.filter (fun p => p.1 != i)).find? (fun p => p.1 == i) = none := by
  rw [List.find?_eq_none]
  intro x hx h
  have h2 := (List.mem_filter.mp hx).2
  rw [bne_iff_ne] at h2
  rw [beq_iff_eq] at h
  exact h2 h

lemma find_const_false (l : List (Nat × L2VPNService)) :
    l.find? (fun _ => false) = none := by
  rw [List.find?_eq_none]
  intro x hx h
  exact Bool.false_ne_true h

/-- C3: after `delete_l2vpn(x)` the immediately following `get_l2vpn(x)`
fails with `notFound` (whatever the delete itself returned), and deleting
an id the server does not hold is itself reported as `notFound`, not as
success — so a caller can tell "nothing to delete" from "deleted". -/
theorem delete_then_get_notFound (c cq : SDXClient) (i : Nat)
    (σ : ServerState) :
    (get_l2vpn cq i (delete_l2vpn c i σ).server).result =
      Except.error SDXError.notFound ∧
    (lookupService σ i = none →
      (delete_l2vpn c i σ).result = Except.error SDXError.notFound) := by
  constructor
  · cases hl : lookupService σ i with
    | some s =>
      simp only [delete_l2vpn, hl]
      simp [get_l2vpn, lookupService, find_after_filter_ne, find_const_false]
    | none =>
      simp only [delete_l2vpn, hl]
      simp [get_l2vpn, hl]
  · intro h
    simp only [delete_l2vpn, h]

/-- Witness for C3's second part at the empty controller state, where no
service with id 7 exists. -/
theorem delete_then_get_notFound_witness :
    ((get_l2vpn bareClient 7 (delete_l2vpn circuitClient 7 σ0).server).result =
        Except.error SDXError.notFound ∧
      (lookupService σ0 7 = none →
        (delete_l2vpn circuitClient 7 σ0).result =
          Except.error SDXError.notFound)) ∧
    lookupService σ0 7 = none ∧
    (delete_l2vpn circuitClient 7 σ0).result = Except.error SDXError.notFound :=
  ⟨delete_then_get_notFound circuitClient bareClient 7 σ0, rfl,
   (delete_then_get_notFound circuitClient bareClient 7 σ0).2 rfl⟩

/-- C4: when `create_l2vpn` succeeds with a service id, the immediately
following `get_l2vpn` on that id returns a service carrying exactly the
name and endpoint list (same port identifiers and VLAN tags) that the
client was constructed with. -/
theorem create_then_get_roundtrip (c cq : SDXClient) (d : ServerDecision)
    (σ : ServerState) (sid : Nat)
    (h : (create_l2vpn c d σ).result = Except.ok sid) :
    ∃ svc,
      (get_l2vpn cq sid (create_l2vpn c d σ).server).result = Except.ok svc ∧
      svc.name = c.name ∧ svc.endpoints = c.endpoints := by
  by_cases hv : validateEndpoints c.endpoints
  · cases d with
    | accept =>
      have hsid : σ.nextId = sid := by
        simpa [create_l2vpn, hv] using h
      refine ⟨⟨c.name, c.endpoints⟩, ?_, rfl, rfl⟩
      rw [← hsid]
      simp [create_l2vpn, hv, get_l2vpn, lookupService]
    | reject status msg =>
      exfalso
      simp [create_l2vpn, hv] at h
  · exfalso
    simp [create_l2vpn, hv] at h

/-- Witness for C4: the notebook's circuit client against the empty
controller state; the create succeeds with id 0 and the query returns the
submitted endpoints. -/
theorem create_then_get_roundtrip_witness :
    (create_l2vpn circuitClient ServerDecision.accept σ0).result =
      Except.ok 0 ∧
    ∃ svc,
      (get_l2vpn bareClient 0
          (create_l2vpn circuitClient ServerDecision.accept σ0).server).result =
        Except.ok svc ∧
      svc.name = circuitClient.name ∧
      svc.endpoints = circuitClient.endpoints :=
  ⟨rfl,
   create_then_get_roundtrip circuitClient bareClient ServerDecision.accept σ0 0
     rfl⟩

/-- The default token path of the notebooks
(`os.getenv("FABRIC_TOKEN_LOCATION", "/home/fabric/.tokens.json")`). -/
def demoTokenPath : String :=
  "/home/fabric/.tokens.json"

/-- A freshly constructed authenticator, nothing loaded yet. -/
def auth0 : TokenAuthentication :=
  { token_path := demoTokenPath, fabric_token := none, token_decoded := none }

/-- Concrete decoded claims of an expired token (expiry instant 5). -/
def claims0 : Claims :=
  { sub := "fabric-user", exp := 5, iss := "cilogon" }

/-- A concrete well-formed but expired credential. -/
def cred0 : Credential :=
  { raw := "expired-id-token", claims := claims0 }

/-- An authenticator holding the expired credential. -/
def authExpired : TokenAuthentication :=
  { token_path := demoTokenPath
    fabric_token := some cred0
    token_decoded := some claims0 }

/-- A filesystem on which every path is nonexistent. -/
def fsAbsent : String → FileEntry :=
  fun _ => FileEntry.absent

/-- Concrete unparseable file content. -/
def rawGarbage : String :=
  "not-a-token"

/-- A filesystem on which every path holds the unparseable content. -/
def fsGarbage : String → FileEntry :=
  fun _ => FileEntry.content rawGarbage

/-- A parser that rejects every content string. -/
def parseNone : String → Option Credential :=
  fun _ => none

/-- C6: loading from a nonexistent or unreadable path fails with
`credentialNotFound`; loading content the parser rejects fails with
`credentialMalformed`; validating a loaded but expired credential fails
with `credentialExpired`. -/
theorem token_auth_error_taxonomy
    (parse : String → Option Credential) (fs : String → FileEntry)
    (a : TokenAuthentication) (raw : String) (cred : Credential) (now : Nat) :
    ((fs a.token_path = FileEntry.absent ∨
        fs a.token_path = FileEntry.unreadable) →
      load_token parse fs a = Except.error SDXError.credentialNotFound) ∧
    ((fs a.token_path = FileEntry.content raw ∧ parse raw = none) →
      load_token parse fs a = Except.error SDXError.credentialMalformed) ∧
    ((a.fabric_token = some cred ∧ cred.claims.exp ≤ now) →
      validate_token now a = Except.error SDXError.credentialExpired) := by
  refine ⟨?_, ?_, ?_⟩
  · rintro (h | h) <;> simp only [load_token, h]
  · rintro ⟨h1, h2⟩
    simp only [load_token, h1, h2]
  · rintro ⟨h1, h2⟩
    simp only [validate_token, h1]
    rw [if_pos h2]

/-- Witness for C6 at concrete filesystems, parser, authenticators and
instant. -/
theorem token_auth_error_taxonomy_witness :
    load_token parseNone fsAbsent auth0 =
      Except.error SDXError.credentialNotFound ∧
    load_token parseNone fsGarbage auth0 =
      Except.error SDXError.credentialMalformed ∧
    validate_token 99 authExpired = Except.error SDXError.credentialExpired := by
  refine ⟨?_, ?_, ?_⟩
  · exact (token_auth_error_taxonomy parseNone fsAbsent auth0 rawGarbage cred0
      99).1 (Or.inl rfl)
  · exact (token_auth_error_taxonomy parseNone fsGarbage auth0 rawGarbage cred0
      99).2.1 ⟨rfl, rfl⟩
  · exact (token_auth_error_taxonomy parseNone fsGarbage authExpired rawGarbage
      cred0 99).2.2 ⟨rfl, by decide⟩

/-- C8: `validate_token` either returns a boolean together with the
authenticator exactly as it was — the stored credential is not mutated —
or fails with `credentialExpired` or `credentialInvalid`. -/
theorem validate_token_frame (now : Nat) (a : TokenAuthentication) :
    (∃ b, validate_token now a = Except.ok (b, a)) ∨
    validate_token now a = Except.error SDXError.credentialExpired ∨
    validate_token now a = Except.error SDXError.credentialInvalid := by
  cases h : a.fabric_token with
  | none =>
    right; right
    simp only [validate_token, h]
  | some cred =>
    by_cases hexp : cred.claims.exp ≤ now
    · right; left
      simp only [validate_token, h]
      rw [if_pos hexp]
    · left
      refine ⟨true, ?_⟩
      simp only [validate_token, h]
      rw [if_neg hexp]

/-- C7 counterexample: the notebook's two clients `SDXClient(url)` and
`SDXClient(url, client_name, client_endpoints)` agree on the credential
and the base URL, yet behave differently on the very same call — the
endpoint list fixed at construction is further state held by the instance
and shared between its calls, so credential and base URL are not the only
such state. -/
theorem client_state_beyond_token_url_cex :
    bareClient.fabric_token = circuitClient.fabric_token ∧
    bareClient.base_url = circuitClient.base_url ∧
    (create_l2vpn bareClient ServerDecision.accept σ0).result =
      Except.error SDXError.validationError ∧
    (create_l2vpn circuitClient ServerDecision.accept σ0).result =
      Except.ok 0 ∧
    (create_l2vpn bareClient ServerDecision.accept σ0).result ≠
      (create_l2vpn circuitClient ServerDecision.accept σ0).result := by
  have h1 : (create_l2vpn bareClient ServerDecision.accept σ0).result =
      Except.error SDXError.validationError := rfl
  have h2 : (create_l2vpn circuitClient ServerDecision.accept σ0).result =
      Except.ok 0 := rfl
  refine ⟨rfl, rfl, h1, h2, ?_⟩
  intro h
  rw [h1, h2] at h
  exact Except.noConfusion h

/-- C7 amended: the client instance holds exactly its four
construction-time fields (credential, base URL, circuit name, endpoint
list) and none of them is mutable — across any sequence of lifecycle
operations the instance is left exactly as it was constructed; all
mutation happens in the controller state. -/
theorem client_unchanged_across_calls (ops : List ClientOp) (c : SDXClient)
    (σ : ServerState) :
    (runOps ops c σ).1 = c := by
  induction ops generalizing σ with
  | nil => rfl
  | cons op rest ih =>
    have hc : (runOp op c σ).1 = c := by cases op <;> rfl
    simp only [runOps]
    rw [hc]
    exact ih _

/-- C9: the create request a client can send is fixed at construction: it
is independent of the controller state and of the server's decision, and
every create request it ever issues carries exactly the name and endpoint
list the client was constructed with.  A different circuit therefore
requires constructing a different client. -/
theorem create_request_fixed_at_construction (c : SDXClient)
    (d e : ServerDecision) (σ τ : ServerState) :
    (create_l2vpn c d σ).wire = (create_l2vpn c e τ).wire ∧
    ∀ r ∈ (create_l2vpn c d σ).wire,
      r.req = Request.createL2vpn c.name c.endpoints := by
  constructor
  · by_cases hv : validateEndpoints c.endpoints
    · cases d <;> cases e <;> simp [create_l2vpn, hv]
    · simp [create_l2vpn, hv]
  · intro r hr
    by_cases hv : validateEndpoints c.endpoints
    · cases d <;> simp [create_l2vpn, hv] at hr <;> rw [hr]
    · simp [create_l2vpn, hv] at hr

/-- The one request the notebook circuit client can send to create a
circuit. -/
def demoCreateRequest : AuthedRequest :=
  ⟨none, Request.createL2vpn demoName demoEndpoints⟩

/-- Witness for C9 at the notebook circuit client: the wire content is the
same under an accepting and a rejecting server on different states, and
the issued request carries the construction-time name and endpoints. -/
theorem create_request_fixed_at_construction_witness :
    (create_l2vpn circuitClient ServerDecision.accept σ0).wire =
      (create_l2vpn circuitClient (ServerDecision.reject 409 ("conflict"))
        σ0).wire ∧
    demoCreateRequest ∈ (create_l2vpn circuitClient ServerDecision.accept
      σ0).wire ∧
    demoCreateRequest.req =
      Request.createL2vpn circuitClient.name circuitClient.endpoints := by
  have hmem : demoCreateRequest ∈
      (create_l2vpn circuitClient ServerDecision.accept σ0).wire := by
    exact List.mem_singleton.mpr rfl
  refine ⟨(create_request_fixed_at_construction circuitClient
    ServerDecision.accept (ServerDecision.reject 409 ("conflict")) σ0 σ0).1,
    hmem, ?_⟩
  exact (create_request_fixed_at_construction circuitClient
    ServerDecision.accept ServerDecision.accept σ0 σ0).2 demoCreateRequest hmem

/-- C2 counterexample: in the no-auth notebook the token is loaded and
validated, but both `SDXClient` constructions pass no token at all
(`SDXClient(url)` and `SDXClient(url, client_name, client_endpoints)`),
and the requests of the resulting client go out with no bearer token
attached — so not every lifecycle operation is performed with the
authenticator's validated token. -/
theorem lifecycle_token_attached_cex :
    clientConstructionsPassToken noauthDemoSteps = false ∧
    DemoStep.constructClient false demoUrl (some demoName)
      (some demoEndpoints) ∈ noauthDemoSteps ∧
    (create_l2vpn circuitClient ServerDecision.accept σ0).wire =
      [⟨none, Request.createL2vpn demoName demoEndpoints⟩] := by
  refine ⟨rfl, ?_, rfl⟩
  simp [noauthDemoSteps]

/-- A concrete bearer token string for the with-auth workflow. -/
def demoFabricToken : String :=
  "fabric-bearer-token"

/-- The with-auth notebook's circuit client,
`SDXClient(fabric_token, url, client_name, client_endpoints)`. -/
def authCircuitClient : SDXClient :=
  { fabric_token := some demoFabricToken
    base_url := demoUrlAuth
    name := demoName
    endpoints := demoEndpoints }

/-- The topology request as sent by the with-auth client. -/
def demoTopologyRequest : AuthedRequest :=
  ⟨some demoFabricToken, Request.getTopology⟩

/-- C2 amended: in the with-auth workflow every client construction passes
the bearer token, and it happens only after `load_token` and
`validate_token` in that order; moreover every request any client
operation puts on the wire carries exactly the client's construction-time
token.  In the no-auth workflow, however, the client is constructed from
the URL alone and its requests carry no token. -/
theorem lifecycle_token_attached_amended :
    clientConstructionsPassToken withauthDemoSteps = true ∧
    withauthDemoSteps.findIdx (fun s => s == DemoStep.loadTokenStep) <
      withauthDemoSteps.findIdx (fun s => s == DemoStep.validateTokenStep) ∧
    withauthDemoSteps.findIdx (fun s => s == DemoStep.validateTokenStep) <
      withauthDemoSteps.findIdx isConstructStep ∧
    (∀ op c σ, ∀ r ∈ (runOp op c σ).2.2, r.auth = c.fabric_token) := by
  refine ⟨rfl, by decide, by decide, ?_⟩
  intro op c σ r hr
  cases op with
  | portsOp =>
    simp [runOp, get_available_ports] at hr
    rw [hr]
  | getAllOp =>
    simp [runOp, get_all_l2vpns] at hr
    rw [hr]
  | getOp i =>
    simp [runOp, get_l2vpn] at hr
    rw [hr]
  | createOp d =>
    by_cases hv : validateEndpoints c.endpoints
    · cases d <;> simp [runOp, create_l2vpn, hv] at hr <;> rw [hr]
    · simp [runOp, create_l2vpn, hv] at hr
  | deleteOp i =>
    cases hl : lookupService σ i with
    | some s =>
      simp only [runOp, delete_l2vpn, hl] at hr
      simp at hr
      rw [hr]
    | none =>
      simp only [runOp, delete_l2vpn, hl] at hr
      simp at hr
      rw [hr]

/-- Witness for the amended C2 at the with-auth client's topology call:
the request on the wire carries the construction-time bearer token. -/
theorem lifecycle_token_attached_amended_witness :
    demoTopologyRequest ∈ (runOp ClientOp.portsOp authCircuitClient σ0).2.2 ∧
    demoTopologyRequest.auth = authCircuitClient.fabric_token := by
  have hmem : demoTopologyRequest ∈
      (runOp ClientOp.portsOp authCircuitClient σ0).2.2 :=
    List.mem_singleton.mpr rfl
  exact ⟨hmem, lifecycle_token_attached_amended.2.2.2 ClientOp.portsOp
    authCircuitClient σ0 demoTopologyRequest hmem⟩

/-- C10: when `create_l2vpn` raises, the notebook's except-clause catches
the exception and `response` stays unbound; the later query and delete
cells then dereference the unbound name — a Python `NameError`, distinct
from every domain (`SDXException`) error — and no request of theirs
reaches the wire.  The query and delete steps are well-defined only after
a successful create. -/
theorem failure_path_leaves_response_unbound (c cq cd : SDXClient)
    (d : ServerDecision) (σ : ServerState) (err : SDXError)
    (h : (create_l2vpn c d σ).result = Except.error err) :
    (runCreateCell c d σ none).1 = none ∧
    (runGetCell cq (runCreateCell c d σ none).2
        (runCreateCell c d σ none).1).1 =
      Except.error CellError.pythonNameError ∧
    (runGetCell cq (runCreateCell c d σ none).2
        (runCreateCell c d σ none).1).2 = [] ∧
    (runDeleteCell cd (runCreateCell c d σ none).2
        (runCreateCell c d σ none).1).1 =
      Except.error CellError.pythonNameError ∧
    (runDeleteCell cd (runCreateCell c d σ none).2
        (runCreateCell c d σ none).1).2.2 = [] ∧
    (∀ e2 : SDXError, CellError.pythonNameError ≠ CellError.sdxError e2) := by
  have h1 : (runCreateCell c d σ none).1 = none := by
    simp only [runCreateCell, h]
  refine ⟨h1, ?_, ?_, ?_, ?_, ?_⟩
  · rw [h1]; rfl
  · rw [h1]; rfl
  · rw [h1]; rfl
  · rw [h1]; rfl
  · intro e2 hne
    exact CellError.noConfusion hne

/-- Witness for C10: the bare notebook client fails validation, so the
failure path is exercised end to end at a concrete input. -/
theorem failure_path_leaves_response_unbound_witness :
    (create_l2vpn bareClient ServerDecision.accept σ0).result =
      Except.error SDXError.validationError ∧
    ((runCreateCell bareClient ServerDecision.accept σ0 none).1 = none ∧
      (runGetCell circuitClient
          (runCreateCell bareClient ServerDecision.accept σ0 none).2
          (runCreateCell bareClient ServerDecision.accept σ0 none).1).1 =
        Except.error CellError.pythonNameError ∧
      (runGetCell circuitClient
          (runCreateCell bareClient ServerDecision.accept σ0 none).2
          (runCreateCell bareClient ServerDecision.accept σ0 none).1).2 = [] ∧
      (runDeleteCell circuitClient
          (runCreateCell bareClient ServerDecision.accept σ0 none).2
          (runCreateCell bareClient ServerDecision.accept σ0 none).1).1 =
        Except.error CellError.pythonNameError ∧
      (runDeleteCell circuitClient
          (runCreateCell bareClient ServerDecision.accept σ0 none).2
          (runCreateCell bareClient ServerDecision.accept σ0 none).1).2.2 =
        [] ∧
      (∀ e2 : SDXError, CellError.pythonNameError ≠ CellError.sdxError e2)) :=
  ⟨rfl,
   failure_path_leaves_response_unbound bareClient circuitClient circuitClient
     ServerDecision.accept σ0 SDXError.validationError rfl⟩

end SdxLib
